import Mathlib

/-!
Verification development for the hybrid_lib_go repository: a shallow
embedding of its core — the Result monad error-handling substrate
(domain/error), the Person value object (domain/valueobject), the greet
use case (application/usecase) and the console boundary adapter
(infrastructure/adapter) — together with theorems settling the spec's
claims about them.

The Go sources present in the repository snapshot give the interfaces,
the design document's code blocks for `GreetUseCase.Execute` and
`ConsoleWriter.Write`, and the documented contracts of the Result monad
and `CreatePerson`; the embedding below follows those code blocks where
they exist and the spec's contract language where only the contract is
given (such definitions carry a `Modelled from the spec:` doc comment).
-/

namespace HybridLibGo

/-- ErrorKind (domain/error/error.go): closed enumeration of error
categories; exactly two members, `ValidationError` and
`InfrastructureError`. -/
inductive ErrorKind : Type where
  | ValidationError : ErrorKind
  | InfrastructureError : ErrorKind
  deriving DecidableEq, Repr

/-- ErrorType (domain/error/error.go): an error kind plus a
human-readable message. -/
structure ErrorType : Type where
  kind : ErrorKind
  message : String
  deriving DecidableEq, Repr

/-- NewValidationError constructor (domain/error). -/
def NewValidationError (message : String) : ErrorType :=
  ⟨ErrorKind.ValidationError, message⟩

/-- NewInfrastructureError constructor (domain/error). -/
def NewInfrastructureError (message : String) : ErrorType :=
  ⟨ErrorKind.InfrastructureError, message⟩

/-- Result[T] (domain/error/result.go): a tagged union of exactly two
variants, success with a payload or failure with an ErrorType.  The Go
struct `{value T; err ErrorType; hasError bool}` populates exactly one
side, discriminated by `hasError`, so the faithful rendering is a
two-constructor inductive. -/
inductive Result (T : Type) : Type where
  | ok (value : T) : Result T
  | err (error : ErrorType) : Result T
  deriving DecidableEq, Repr

namespace Result

/-- IsOk predicate: true exactly on the success variant. -/
def IsOk {T : Type} : Result T → Bool
  | .ok _ => true
  | .err _ => false

/-- IsError predicate: true exactly on the failure variant. -/
def IsError {T : Type} : Result T → Bool
  | .ok _ => false
  | .err _ => true

/-- Kind of the carried error, when the Result is a failure. -/
def errorKind {T : Type} : Result T → Option ErrorKind
  | .ok _ => none
  | .err e => some e.kind

/-- Value accessor: returns the payload on success and panics
("fails fatally") on a failure Result.  The Go panic is embedded as the
`Except.error` branch carrying the panic message. -/
def Value {T : Type} : Result T → Except String T
  | .ok v => Except.ok v
  | .err _ => Except.error ("Value called on error Result")

/-- ErrorInfo accessor: returns the ErrorType on failure and panics on a
success Result; the panic is the `Except.error` branch. -/
def ErrorInfo {T : Type} : Result T → Except String ErrorType
  | .ok _ => Except.error ("ErrorInfo called on ok Result")
  | .err e => Except.ok e

/-- Modelled from the spec: `unwrapOr(default)` of domain/error
(result.go is not under src/) — payload on success, the default on
failure; never fails. -/
def UnwrapOr {T : Type} (r : Result T) (d : T) : T :=
  match r with
  | .ok v => v
  | .err _ => d

/-- Modelled from the spec: `unwrapOrElse(fn)` of domain/error —
payload on success, `fn(error)` on failure. -/
def UnwrapOrElse {T : Type} (r : Result T) (fn : ErrorType → T) : T :=
  match r with
  | .ok v => v
  | .err e => fn e

/-- Modelled from the spec: `map(fn)` of domain/error — `Ok(fn(value))`
on success; on failure the same failure unchanged. -/
def Map {T : Type} (r : Result T) (fn : T → T) : Result T :=
  match r with
  | .ok v => .ok (fn v)
  | .err e => .err e

/-- Modelled from the spec: `andThen(fn)` of domain/error — `fn(value)`
on success (the short-circuiting chain operator); on failure the same
failure unchanged without invoking `fn`. -/
def AndThen {T : Type} (r : Result T) (fn : T → Result T) : Result T :=
  match r with
  | .ok v => fn v
  | .err e => .err e

/-- Modelled from the spec: `mapError(fn)` of domain/error —
`Err(fn(error))` on failure; a success is unchanged. -/
def MapError {T : Type} (r : Result T) (fn : ErrorType → ErrorType) : Result T :=
  match r with
  | .ok v => .ok v
  | .err e => .err (fn e)

/-- Map with its function argument instrumented by a side-effecting
probe: the function reports, in the Bool component, that it was invoked.
Same control flow as `Map`; the second component of the output records
whether the probe fired. -/
def mapProbe {T : Type} (r : Result T) (fn : T → T × Bool) : Result T × Bool :=
  match r with
  | .ok v => ((.ok (fn v).1), (fn v).2)
  | .err e => (.err e, false)

/-- AndThen with its function argument instrumented by a probe, as in
`mapProbe`. -/
def andThenProbe {T : Type} (r : Result T) (fn : T → Result T × Bool) :
    Result T × Bool :=
  match r with
  | .ok v => fn v
  | .err e => (.err e, false)

end Result

/-- Person (domain/valueobject/person.go): immutable value object with a
single name field, constructible only through `CreatePerson`. -/
structure Person : Type where
  name : String
  deriving DecidableEq, Repr

/-- Name accessor of Person. -/
def Person.Name (p : Person) : String :=
  p.name

/-- GreetingMessage (domain/valueobject/person.go): pure function
returning the greeting for the person's name; no failure mode. -/
def Person.GreetingMessage (p : Person) : String :=
  "Hello, " ++ p.name ++ "!"

/-- MaxNameLength constant (domain/valueobject/person.go). -/
def MaxNameLength : Nat := 100

/-- Unicode code-point count of a string, the embedding of Go's
`utf8.RuneCountInString`; a Lean `Char` is one Unicode scalar value, so
`String.length` counts code points, not bytes. -/
def codepoints (s : String) : Nat :=
  s.length

/-- White-space test of Go's `unicode.IsSpace` over the Latin-1 range:
space, tab, newline, vertical tab, form feed, carriage return, NEL
(U+0085) and NBSP (U+00A0).  Higher-plane White_Space code points are
outside every behaviour the spec or a claim mentions and are omitted. -/
def isSpace (c : Char) : Bool :=
  c == ' ' || c == Char.ofNat 9 || c == Char.ofNat 10 || c == Char.ofNat 11 ||
  c == Char.ofNat 12 || c == Char.ofNat 13 || c == Char.ofNat 133 || c == Char.ofNat 160

/-- Go's `strings.TrimSpace`: the string with all leading and all
trailing white space removed. -/
def trimSpace (s : String) : String :=
  String.mk (((s.data.dropWhile isSpace).reverse.dropWhile isSpace).reverse)

/-- Error message used by the empty-name validation failure. -/
def emptyNameMessage : String := "name cannot be empty"

/-- Error message used by the over-length validation failure. -/
def nameTooLongMessage : String := "name exceeds maximum length"

/-- Modelled from the spec: `CreatePerson` of domain/valueobject
(person.go is not under src/; the design document gives only its
signature).  Per the spec: fails with ValidationError (empty-name
message) when the trimmed name has zero length; fails with
ValidationError (too-long message) when the name exceeds 100 characters
counted in Unicode code points; otherwise returns `Ok(Person{name})`
holding the original, untrimmed name.  Emptiness is checked before
length. -/
def CreatePerson (name : String) : Result Person :=
  if codepoints (trimSpace name) = 0 then
    Result.err (NewValidationError emptyNameMessage)
  else if MaxNameLength < codepoints name then
    Result.err (NewValidationError nameTooLongMessage)
  else
    Result.ok ⟨name⟩

/-- Unit (application/model/unit.go): zero-information marker payload
for operations whose success carries no data. -/
inductive MUnit : Type where
  | unit : MUnit
  deriving DecidableEq, Repr

/-- UnitValue (application/model/unit.go). -/
def UnitValue : MUnit := MUnit.unit

/-- GreetCommand (application/command/greet_command.go): input DTO
carrying the name to greet. -/
structure GreetCommand : Type where
  name : String
  deriving DecidableEq, Repr

/-- NewGreetCommand constructor. -/
def NewGreetCommand (name : String) : GreetCommand :=
  ⟨name⟩

/-- Name accessor of GreetCommand. -/
def GreetCommand.Name (cmd : GreetCommand) : String :=
  cmd.name

/-- Cancellation signal: the observable state of a Go `context.Context`
at the adapter — the non-blocking `select` on `ctx.Done()` takes the
done branch exactly when the context is already cancelled. -/
structure Ctx : Type where
  cancelled : Bool
  deriving DecidableEq, Repr

/-- A WriterPort (application/port/outbound/writer_port.go) as the use
case sees it: any function from context and message to a Result. -/
def WriterPort : Type :=
  Ctx → String → Result MUnit

/-- GreetUseCase.Execute (application/usecase/greet_usecase.go, design
document §3.2): validate the command's name with CreatePerson; on
failure return `Err` of that same ErrorType (the source's
`domerr.Err[model.Unit](personResult.ErrorInfo())`); on success call
`writer.Write(ctx, person.GreetingMessage())` and return its Result
unchanged.  The source's `IsError` guard followed by the `ErrorInfo` and
`Value` accessors is rendered as the match on the two Result variants,
which is exactly what the guard discriminates.  The second component
instruments the port: it is the list of messages passed to the writer's
Write, in call order, so `[]` means the writer was never invoked. -/
def GreetUseCase.Execute (write : WriterPort) (ctx : Ctx) (cmd : GreetCommand) :
    Result MUnit × List String :=
  match CreatePerson cmd.Name with
  | Result.err e => (Result.err e, [])
  | Result.ok person => (write ctx person.GreetingMessage, [person.GreetingMessage])

/-- Behaviour of the underlying `io.Writer` inside the adapter when
`fmt.Fprintln(cw.w, message)` is attempted: the write succeeds, fails
with an I/O error after writing some bytes, or raises a runtime fault
(panic) after writing some bytes. -/
inductive FprintlnOutcome : Type where
  | ok : FprintlnOutcome
  | ioError (written : String) (errMessage : String) : FprintlnOutcome
  | panics (written : String) (fault : String) : FprintlnOutcome
  deriving DecidableEq, Repr

/-- Observable effect of one adapter call on the underlying stream:
the bytes the stream received and the number of Fprintln attempts. -/
structure WriteEffect : Type where
  written : String
  attempts : Nat
  deriving DecidableEq, Repr

/-- Body of ConsoleWriter.Write (infrastructure/adapter, design document
§3.3 and the infrastructure README), without the deferred recover: first
the non-blocking select on `ctx.Done()` — if the context is already
cancelled, return `Err(InfrastructureError)` with no write attempted;
otherwise attempt `fmt.Fprintln(cw.w, message)`, which on success writes
the message plus one newline, on I/O error yields
`Err(InfrastructureError(err.Error()))`, and on a runtime fault
propagates the fault out of the body (the `Except.error` branch). -/
def ConsoleWriter.WriteBody (ctx : Ctx) (beh : FprintlnOutcome) (message : String) :
    Except String (Result MUnit) × WriteEffect :=
  if ctx.cancelled then
    (Except.ok (Result.err (NewInfrastructureError ("context cancelled"))), ⟨"", 0⟩)
  else
    match beh with
    | FprintlnOutcome.ok =>
        (Except.ok (Result.ok UnitValue), ⟨message ++ "\n", 1⟩)
    | FprintlnOutcome.ioError w m =>
        (Except.ok (Result.err (NewInfrastructureError m)), ⟨w, 1⟩)
    | FprintlnOutcome.panics w fault =>
        (Except.error fault, ⟨w, 1⟩)

/-- ConsoleWriter.Write with its deferred recover (the named-result
`defer func() { if r := recover(); r != nil { result = Err(...) } }()`
of the source): a fault escaping the body is converted into
`Err(InfrastructureError("panic recovered"))`; the function is total
into Result, so no fault crosses the interface. -/
def ConsoleWriter.Write (ctx : Ctx) (beh : FprintlnOutcome) (message : String) :
    Result MUnit × WriteEffect :=
  match ConsoleWriter.WriteBody ctx beh message with
  | (Except.ok r, eff) => (r, eff)
  | (Except.error _, eff) => (Result.err (NewInfrastructureError ("panic recovered")), eff)

/-- Inversion: a successful CreatePerson holds exactly the original
name. -/
lemma createPerson_ok_eq {s : String} {p : Person}
    (h : CreatePerson s = Result.ok p) : p = ⟨s⟩ := by
  unfold CreatePerson at h
  by_cases h1 : codepoints (trimSpace s) = 0
  · simp [h1] at h
  · by_cases h2 : MaxNameLength < codepoints s
    · simp [h1, h2] at h
    · simp [h1, h2] at h
      exact h.symm

/-- C1: whenever the body of the adapter's write raises a runtime fault
(the `Except.error` outcome of `ConsoleWriter.WriteBody`), the write as
a whole returns `Err` with kind InfrastructureError; since
`ConsoleWriter.Write` is total into `Result MUnit × WriteEffect`, no
fault crosses the write interface. -/
theorem C1_write_converts_panic_to_infrastructure_error
    (ctx : Ctx) (beh : FprintlnOutcome) (message fault : String) (eff : WriteEffect)
    (h : ConsoleWriter.WriteBody ctx beh message = (Except.error fault, eff)) :
    ConsoleWriter.Write ctx beh message =
      (Result.err (NewInfrastructureError ("panic recovered")), eff) ∧
    (ConsoleWriter.Write ctx beh message).1.errorKind = some ErrorKind.InfrastructureError := by
  unfold ConsoleWriter.Write
  rw [h]
  exact ⟨rfl, rfl⟩

/-- C1 witness: a concrete fault raised during the write is converted
to an InfrastructureError. -/
theorem C1_witness :
    ConsoleWriter.WriteBody ⟨false⟩ (FprintlnOutcome.panics ("") ("boom")) ("m") =
      (Except.error ("boom"), ⟨"", 1⟩) ∧
    ConsoleWriter.Write ⟨false⟩ (FprintlnOutcome.panics ("") ("boom")) ("m") =
      (Result.err (NewInfrastructureError ("panic recovered")), ⟨"", 1⟩) :=
  ⟨rfl,
   (C1_write_converts_panic_to_infrastructure_error ⟨false⟩
      (FprintlnOutcome.panics ("") ("boom")) ("m") ("boom") ⟨"", 1⟩ rfl).1⟩

/-- C2: a name of more than 100 Unicode code points is rejected with a
ValidationError, and the limit counts code points, not bytes — the
two-code-point, six-byte name 世界 is accepted and greets as
"Hello, 世界!". -/
theorem C2_codepoint_length_limit :
    (∀ s : String, MaxNameLength < codepoints s →
      (CreatePerson s).errorKind = some ErrorKind.ValidationError) ∧
    CreatePerson ("世界") = Result.ok ⟨"世界"⟩ ∧
    Person.GreetingMessage ⟨"世界"⟩ = "Hello, 世界!" := by
  refine ⟨?_, by decide, by decide⟩
  intro s h
  unfold CreatePerson
  by_cases h1 : codepoints (trimSpace s) = 0
  · simp [h1, Result.errorKind, NewValidationError]
  · simp [h1, h, Result.errorKind, NewValidationError]

/-- C2 witness: a concrete 101-code-point name is rejected with a
ValidationError. -/
theorem C2_witness :
    MaxNameLength < codepoints (String.mk (List.replicate 101 'a')) ∧
    (CreatePerson (String.mk (List.replicate 101 'a'))).errorKind =
      some ErrorKind.ValidationError :=
  ⟨by decide, C2_codepoint_length_limit.1 (String.mk (List.replicate 101 'a')) (by decide)⟩

/-- C3 counterexample: the single space has one code point, within the
claimed 1..100 range, yet CreatePerson rejects it, because the trimmed
name is empty — so the claim as stated is false at s = " ". -/
theorem C3_counterexample_single_space :
    (1 ≤ codepoints (" ") ∧ codepoints (" ") ≤ 100) ∧
    (CreatePerson (" ")).IsError = true := by
  decide

/-- C3 (amended): for every string of 1..100 code points whose trimmed
form is nonempty, CreatePerson returns Ok and the Person's name accessor
returns the string unchanged. -/
theorem C3_valid_name_accepted (s : String)
    (h0 : codepoints (trimSpace s) ≠ 0)
    (h1 : 1 ≤ codepoints s) (h2 : codepoints s ≤ 100) :
    CreatePerson s = Result.ok ⟨s⟩ ∧ Person.Name ⟨s⟩ = s := by
  have h3 : ¬ MaxNameLength < codepoints s := by
    simp only [MaxNameLength]
    omega
  refine ⟨?_, rfl⟩
  unfold CreatePerson
  simp [h0, h3]

/-- C3 witness: the name Alice satisfies the amended hypotheses and is
accepted unchanged. -/
theorem C3_witness :
    codepoints (trimSpace ("Alice")) ≠ 0 ∧
    1 ≤ codepoints ("Alice") ∧ codepoints ("Alice") ≤ 100 ∧
    CreatePerson ("Alice") = Result.ok ⟨"Alice"⟩ :=
  ⟨by decide, by decide, by decide,
   (C3_valid_name_accepted ("Alice") (by decide) (by decide) (by decide)).1⟩

/-- C4: every string whose trimmed form is empty — including
whitespace-only strings of any length — is rejected with a
ValidationError carrying the empty-name message; the empty-name and
too-long messages are distinct, so such a string never reports the
length error. -/
theorem C4_trimmed_empty_reports_empty_name (s : String)
    (h : codepoints (trimSpace s) = 0) :
    CreatePerson s = Result.err (NewValidationError emptyNameMessage) ∧
    (CreatePerson s).errorKind = some ErrorKind.ValidationError ∧
    emptyNameMessage ≠ nameTooLongMessage := by
  refine ⟨?_, ?_, by decide⟩
  · unfold CreatePerson
    simp [h]
  · unfold CreatePerson
    simp [h, Result.errorKind, NewValidationError]

/-- C4 witness: 101 characters of whitespace — over the length limit,
yet trimmed empty — report the empty-name error, not the length
error. -/
theorem C4_witness :
    codepoints (String.mk (List.replicate 101 ' ')) = 101 ∧
    codepoints (trimSpace (String.mk (List.replicate 101 ' '))) = 0 ∧
    CreatePerson (String.mk (List.replicate 101 ' ')) =
      Result.err (NewValidationError emptyNameMessage) :=
  ⟨by decide, by decide,
   (C4_trimmed_empty_reports_empty_name (String.mk (List.replicate 101 ' ')) (by decide)).1⟩

/-- C5: when validation of the command's name fails, Execute returns
exactly the failure produced by CreatePerson — the same ErrorType, kind
and message, no wrapping — and the writer's Write is never invoked (the
invocation trace is empty). -/
theorem C5_validation_failure_forwarded_write_not_invoked
    (write : WriterPort) (ctx : Ctx) (cmd : GreetCommand) (e : ErrorType)
    (h : CreatePerson cmd.Name = Result.err e) :
    GreetUseCase.Execute write ctx cmd = (Result.err e, []) := by
  unfold GreetUseCase.Execute
  rw [h]

/-- C5 witness: with the empty name, Execute forwards the empty-name
ValidationError and the writer is never invoked. -/
theorem C5_witness :
    CreatePerson (GreetCommand.Name ⟨""⟩) = Result.err (NewValidationError emptyNameMessage) ∧
    GreetUseCase.Execute (fun _ _ => Result.ok UnitValue) ⟨false⟩ ⟨""⟩ =
      (Result.err (NewValidationError emptyNameMessage), []) :=
  ⟨by decide,
   C5_validation_failure_forwarded_write_not_invoked (fun _ _ => Result.ok UnitValue)
     ⟨false⟩ ⟨""⟩ (NewValidationError emptyNameMessage) (by decide)⟩

/-- C6: when validation of the command's name succeeds, Execute invokes
the writer's Write exactly once, with the message
`"Hello, " ++ name ++ "!"`, and returns that write's Result
unchanged. -/
theorem C6_valid_name_write_invoked_once
    (write : WriterPort) (ctx : Ctx) (cmd : GreetCommand) (p : Person)
    (h : CreatePerson cmd.Name = Result.ok p) :
    GreetUseCase.Execute write ctx cmd =
      (write ctx ("Hello, " ++ cmd.Name ++ "!"), ["Hello, " ++ cmd.Name ++ "!"]) := by
  have hp := createPerson_ok_eq h
  unfold GreetUseCase.Execute
  rw [h, hp]
  rfl

/-- C6 witness: with the name Alice and a concrete writer, Execute calls
the writer once with "Hello, Alice!" and returns its Ok result. -/
theorem C6_witness :
    CreatePerson (GreetCommand.Name ⟨"Alice"⟩) = Result.ok ⟨"Alice"⟩ ∧
    GreetUseCase.Execute (fun _ _ => Result.ok UnitValue) ⟨false⟩ ⟨"Alice"⟩ =
      ((fun (_ : Ctx) (_ : String) => Result.ok UnitValue) ⟨false⟩
        ("Hello, " ++ "Alice" ++ "!"), ["Hello, " ++ "Alice" ++ "!"]) :=
  ⟨by decide,
   C6_valid_name_write_invoked_once (fun _ _ => Result.ok UnitValue)
     ⟨false⟩ ⟨"Alice"⟩ ⟨"Alice"⟩ (by decide)⟩

/-- C7: when the cancellation signal is already cancelled at entry, the
adapter's write returns `Err` with kind InfrastructureError, writes no
bytes, and never attempts the underlying write (zero Fprintln
attempts). -/
theorem C7_precancelled_context_no_write
    (ctx : Ctx) (beh : FprintlnOutcome) (message : String)
    (h : ctx.cancelled = true) :
    ConsoleWriter.Write ctx beh message =
      (Result.err (NewInfrastructureError ("context cancelled")), ⟨"", 0⟩) ∧
    (ConsoleWriter.Write ctx beh message).1.errorKind = some ErrorKind.InfrastructureError := by
  obtain ⟨c⟩ := ctx
  cases c
  · exact absurd h (by decide)
  · exact ⟨rfl, rfl⟩

/-- C7 witness: a concrete pre-cancelled write returns the cancellation
InfrastructureError with zero write attempts. -/
theorem C7_witness :
    Ctx.cancelled ⟨true⟩ = true ∧
    ConsoleWriter.Write ⟨true⟩ FprintlnOutcome.ok ("x") =
      (Result.err (NewInfrastructureError ("context cancelled")), ⟨"", 0⟩) :=
  ⟨rfl, (C7_precancelled_context_no_write ⟨true⟩ FprintlnOutcome.ok ("x") rfl).1⟩

/-- C8: Map and AndThen applied to a failure Result return the same
failure unchanged — same ErrorType, hence same kind and message — for
every function argument, and the probed variants show the function is
never invoked (the probe stays false). -/
theorem C8_combinators_on_err_unchanged
    (T : Type) (e : ErrorType) (f0 : T → T) (g0 : T → Result T)
    (f : T → T × Bool) (g : T → Result T × Bool) :
    (Result.err e : Result T).Map f0 = Result.err e ∧
    (Result.err e : Result T).AndThen g0 = Result.err e ∧
    (Result.err e : Result T).mapProbe f = (Result.err e, false) ∧
    (Result.err e : Result T).andThenProbe g = (Result.err e, false) :=
  ⟨rfl, rfl, rfl, rfl⟩

/-- C8 witness: a concrete probed map over a failure leaves the failure
unchanged and the probe uninvoked. -/
theorem C8_witness :
    (Result.err (NewValidationError ("x")) : Result Nat).mapProbe (fun v => (v + 1, true)) =
      (Result.err (NewValidationError ("x")), false) :=
  (C8_combinators_on_err_unchanged Nat (NewValidationError ("x")) id
    (fun v => Result.ok v) (fun v => (v + 1, true)) (fun v => (Result.ok v, true))).2.2.1

/-- C9: Value returns the payload on a success and fails fatally (the
embedded panic, `Except.error`) on a failure; ErrorInfo symmetrically
returns the ErrorType on a failure and fails fatally on a success; and
under the precondition `IsOk` the fatal branch of Value is unreachable —
Value always returns a payload. -/
theorem C9_value_errorinfo_accessors :
    (∀ (T : Type) (v : T), (Result.ok v).Value = Except.ok v) ∧
    (∀ (T : Type) (e : ErrorType), ∃ m, (Result.err e : Result T).Value = Except.error m) ∧
    (∀ (T : Type) (v : T), ∃ m, (Result.ok v).ErrorInfo = Except.error m) ∧
    (∀ (T : Type) (e : ErrorType), (Result.err e : Result T).ErrorInfo = Except.ok e) ∧
    (∀ (T : Type) (r : Result T), r.IsOk = true → ∃ v, r.Value = Except.ok v) := by
  refine ⟨fun T v => rfl, fun T e => ⟨_, rfl⟩, fun T v => ⟨_, rfl⟩, fun T e => rfl, ?_⟩
  intro T r h
  cases r with
  | ok v => exact ⟨v, rfl⟩
  | err e => simp [Result.IsOk] at h

/-- C9 witness: on a concrete success Result that satisfies IsOk, Value
returns a payload. -/
theorem C9_witness : ∃ v, (Result.ok (3 : Nat)).Value = Except.ok v :=
  C9_value_errorinfo_accessors.2.2.2.2 Nat (Result.ok 3) rfl

/-- C10: on the successful path — context not cancelled, underlying
Fprintln succeeds — the adapter's write emits the message followed by
exactly one trailing newline to the underlying stream, in one attempt,
and returns Ok(Unit). -/
theorem C10_success_path_appends_newline
    (ctx : Ctx) (message : String) (h : ctx.cancelled = false) :
    ConsoleWriter.Write ctx FprintlnOutcome.ok message =
      (Result.ok UnitValue, ⟨message ++ "\n", 1⟩) := by
  obtain ⟨c⟩ := ctx
  cases c
  · rfl
  · exact absurd h (by decide)

/-- C10 witness: the concrete greeting is written with one trailing
newline and the write returns Ok(Unit). -/
theorem C10_witness :
    Ctx.cancelled ⟨false⟩ = false ∧
    ConsoleWriter.Write ⟨false⟩ FprintlnOutcome.ok ("Hello, Alice!") =
      (Result.ok UnitValue, ⟨"Hello, Alice!" ++ "\n", 1⟩) :=
  ⟨rfl, C10_success_path_appends_newline ⟨false⟩ ("Hello, Alice!") rfl⟩

end HybridLibGo
